import Mathlib

/-!
Verification of the financial projection engine in src/proyeccion.py.

The projection engine is `calcular_proyeccion_financiera`: a pure function
from the user-supplied assumptions to a month-indexed table (here a list of
`MonthRecord`).  Monetary quantities are modelled as exact rationals (the
Python code works on IEEE floats; the rational model is the standard exact
idealisation), user counts as integers produced by numpy rounding
(`np.round`, half-to-even) followed by `astype(int)`.
-/

namespace Proyeccion

/-- Model of `np.round` on a rational: round to the nearest integer,
ties to the even integer (banker's rounding, as numpy does). -/
def roundHalfEven (q : ℚ) : ℤ :=
  if q - ⌊q⌋ < 1/2 then ⌊q⌋
  else if (1:ℚ)/2 < q - ⌊q⌋ then ⌊q⌋ + 1
  else if ⌊q⌋ % 2 = 0 then ⌊q⌋ else ⌊q⌋ + 1

/-- The assumption set fed to `calcular_proyeccion_financiera`
(src/proyeccion.py lines 131-136).  `sueldos` and `gracia` model the two
Python dicts as total lookup functions (dict access with default 0 for
`gracia.get(rol, 0)`); `costosFijosTotal` models `costos_fijos['total']`,
the only entry of the fixed-cost dict the engine reads;
`tasaImpuestos` is a percentage, as in the source (divided by 100 inside
the engine). -/
structure Config where
  meses : ℕ
  usuariosPremiumInicio : ℕ
  usuariosBasicaInicio : ℕ
  precioPremium : ℚ
  precioBasica : ℚ
  crecimientoMensual : ℚ
  sueldos : String → ℚ
  gracia : String → ℕ
  costosFijosTotal : ℚ
  costoVariable : ℚ
  inversionInicial : ℚ
  tasaImpuestos : ℚ

/-- One row of the projected table: the columns built by
`calcular_proyeccion_financiera` (src/proyeccion.py lines 140-214). -/
structure MonthRecord where
  mes : ℕ
  usuariosPremium : ℤ
  usuariosBasicos : ℤ
  totalUsuarios : ℤ
  ingresosPremium : ℚ
  ingresosBasicos : ℚ
  ingresosTotales : ℚ
  costosPersonal : ℚ
  costosFijos : ℚ
  costosVariables : ℚ
  costosTotales : ℚ
  utilidadBruta : ℚ
  impuestos : ℚ
  utilidadNeta : ℚ
  efectivoAcumulado : ℚ
  margenBruto : ℚ
  margenNeto : ℚ
  roiAcumulado : ℚ
deriving DecidableEq

/-- Column `Usuarios_Premium` (line 144): `np.round(inicio * (1+g)**(mes-1)).astype(int)`. -/
def usuariosPremiumMes (c : Config) (mes : ℕ) : ℤ :=
  roundHalfEven ((c.usuariosPremiumInicio : ℚ) * (1 + c.crecimientoMensual) ^ (mes - 1))

/-- Column `Usuarios_Basicos` (line 148). -/
def usuariosBasicosMes (c : Config) (mes : ℕ) : ℤ :=
  roundHalfEven ((c.usuariosBasicaInicio : ℚ) * (1 + c.crecimientoMensual) ^ (mes - 1))

/-- Column `Total_Usuarios` (line 152). -/
def totalUsuariosMes (c : Config) (mes : ℕ) : ℤ :=
  usuariosPremiumMes c mes + usuariosBasicosMes c mes

/-- Column `Ingresos_Premium` (line 155). -/
def ingresosPremiumMes (c : Config) (mes : ℕ) : ℚ :=
  (usuariosPremiumMes c mes : ℚ) * c.precioPremium

/-- Column `Ingresos_Basicos` (line 156). -/
def ingresosBasicosMes (c : Config) (mes : ℕ) : ℚ :=
  (usuariosBasicosMes c mes : ℚ) * c.precioBasica

/-- Column `Ingresos_Totales` (line 157). -/
def ingresosTotalesMes (c : Config) (mes : ℕ) : ℚ :=
  ingresosPremiumMes c mes + ingresosBasicosMes c mes

/-- The hardcoded role/headcount pairs of the personnel-cost loop
(src/proyeccion.py lines 164-173). -/
def rolesTable : List (String × ℕ) :=
  [("CEO", 1), ("CTO", 1), ("Dev Fullstack", 2), ("Diseñador UX/UI", 1),
   ("Growth Marketer", 1), ("Soporte", 1), ("Sales Manager", 2), ("CFO", 1)]

/-- The eight role names of `rolesTable`. -/
def roleNames : List String := rolesTable.map Prod.fst

/-- One role's term in the personnel-cost sum (line 163):
`sueldos[rol] * cantidad if mes > gracia.get(rol, 0) else 0`. -/
def contribucionRol (c : Config) (mes : ℕ) (rol : String) (cantidad : ℕ) : ℚ :=
  if c.gracia rol < mes then c.sueldos rol * (cantidad : ℚ) else 0

/-- Column `Costos_Personal` for one month (lines 160-177): the sum of the per-role
contributions over the hardcoded table. -/
def costosPersonalMes (c : Config) (mes : ℕ) : ℚ :=
  (rolesTable.map (fun e => contribucionRol c mes e.1 e.2)).sum

/-- Column `Costos_Fijos` (line 178): personnel plus `costos_fijos['total']`. -/
def costosFijosMes (c : Config) (mes : ℕ) : ℚ :=
  costosPersonalMes c mes + c.costosFijosTotal

/-- Column `Costos_Variables` (line 179). -/
def costosVariablesMes (c : Config) (mes : ℕ) : ℚ :=
  (totalUsuariosMes c mes : ℚ) * c.costoVariable

/-- Column `Costos_Totales` (line 180). -/
def costosTotalesMes (c : Config) (mes : ℕ) : ℚ :=
  costosFijosMes c mes + costosVariablesMes c mes

/-- Column `Utilidad_Bruta` (line 183). -/
def utilidadBrutaMes (c : Config) (mes : ℕ) : ℚ :=
  ingresosTotalesMes c mes - costosTotalesMes c mes

/-- Column `Impuestos` (lines 184-188): `np.where(Utilidad_Bruta > 0,
Utilidad_Bruta * (tasa_impuestos / 100), 0)`. -/
def impuestosMes (c : Config) (mes : ℕ) : ℚ :=
  if 0 < utilidadBrutaMes c mes then utilidadBrutaMes c mes * (c.tasaImpuestos / 100) else 0

/-- Column `Utilidad_Neta` (line 189). -/
def utilidadNetaMes (c : Config) (mes : ℕ) : ℚ :=
  utilidadBrutaMes c mes - impuestosMes c mes

/-- Running sum of `Utilidad_Neta` over months 1..n — the `cumsum` of
line 193. -/
def sumaUtilidadNeta (c : Config) : ℕ → ℚ
  | 0 => 0
  | n + 1 => sumaUtilidadNeta c n + utilidadNetaMes c (n + 1)

/-- Column `Efectivo_Acumulado` (line 193): `cumsum(Utilidad_Neta) + inversion_inicial`. -/
def efectivoAcumuladoMes (c : Config) (mes : ℕ) : ℚ :=
  sumaUtilidadNeta c mes + c.inversionInicial

/-- Column `Margen_Bruto` (lines 196-200): `np.where(Ingresos_Totales > 0,
Utilidad_Bruta / Ingresos_Totales, 0)`. -/
def margenBrutoMes (c : Config) (mes : ℕ) : ℚ :=
  if 0 < ingresosTotalesMes c mes then utilidadBrutaMes c mes / ingresosTotalesMes c mes else 0

/-- Column `Margen_Neto` (lines 202-206). -/
def margenNetoMes (c : Config) (mes : ℕ) : ℚ :=
  if 0 < ingresosTotalesMes c mes then utilidadNetaMes c mes / ingresosTotalesMes c mes else 0

/-- Column `ROI_Acumulado` (lines 208-212): `np.where(inversion_inicial > 0,
(Efectivo_Acumulado - inversion_inicial) / inversion_inicial, 0)`. -/
def roiAcumuladoMes (c : Config) (mes : ℕ) : ℚ :=
  if 0 < c.inversionInicial then
    (efectivoAcumuladoMes c mes - c.inversionInicial) / c.inversionInicial
  else 0

/-- The row of the projected table for one month. -/
def monthRecord (c : Config) (mes : ℕ) : MonthRecord where
  mes := mes
  usuariosPremium := usuariosPremiumMes c mes
  usuariosBasicos := usuariosBasicosMes c mes
  totalUsuarios := totalUsuariosMes c mes
  ingresosPremium := ingresosPremiumMes c mes
  ingresosBasicos := ingresosBasicosMes c mes
  ingresosTotales := ingresosTotalesMes c mes
  costosPersonal := costosPersonalMes c mes
  costosFijos := costosFijosMes c mes
  costosVariables := costosVariablesMes c mes
  costosTotales := costosTotalesMes c mes
  utilidadBruta := utilidadBrutaMes c mes
  impuestos := impuestosMes c mes
  utilidadNeta := utilidadNetaMes c mes
  efectivoAcumulado := efectivoAcumuladoMes c mes
  margenBruto := margenBrutoMes c mes
  margenNeto := margenNetoMes c mes
  roiAcumulado := roiAcumuladoMes c mes

/-- Engine `calcular_proyeccion_financiera`: the table has index `range(1, meses+1)`
(line 140), i.e. one row per month 1..meses in order. -/
def proyeccion (c : Config) : List MonthRecord :=
  (List.range c.meses).map (fun k => monthRecord c (k + 1))

/-- Validity of a `Config` as the specification defines it (spec section 3
and section 7): positive horizon, positive prices, at least one initial
user, non-negative growth, salaries, costs, investment, and a tax rate
whose fraction `tasaImpuestos/100` lies in `[0,1]`.  (Role-name uniqueness
holds by construction of the hardcoded `rolesTable`.) -/
structure SpecValid (c : Config) : Prop where
  meses_pos : 0 < c.meses
  precioPremium_pos : 0 < c.precioPremium
  precioBasica_pos : 0 < c.precioBasica
  usuarios_ne : c.usuariosPremiumInicio + c.usuariosBasicaInicio ≠ 0
  crecimiento_nonneg : 0 ≤ c.crecimientoMensual
  sueldos_nonneg : ∀ r, 0 ≤ c.sueldos r
  costosFijos_nonneg : 0 ≤ c.costosFijosTotal
  costoVariable_nonneg : 0 ≤ c.costoVariable
  inversion_nonneg : 0 ≤ c.inversionInicial
  tasa_nonneg : 0 ≤ c.tasaImpuestos
  tasa_le : c.tasaImpuestos ≤ 100

/-- The break-even example configuration from spec section 8: 12 months,
prices 10 and 5, 50 premium and 100 basic users, 10 percent growth, no
payroll, 500 fixed costs, zero variable cost, zero tax, zero investment. -/
def cfgEjemplo : Config where
  meses := 12
  usuariosPremiumInicio := 50
  usuariosBasicaInicio := 100
  precioPremium := 10
  precioBasica := 5
  crecimientoMensual := 1/10
  sueldos := fun _ => 0
  gracia := fun _ => 0
  costosFijosTotal := 500
  costoVariable := 0
  inversionInicial := 0
  tasaImpuestos := 0

/-- A small configuration with 15 percent growth used to separate
per-month rounding of the exact compound value from iterated rounding. -/
def cfgC1 : Config where
  meses := 3
  usuariosPremiumInicio := 10
  usuariosBasicaInicio := 10
  precioPremium := 10
  precioBasica := 5
  crecimientoMensual := 3/20
  sueldos := fun _ => 0
  gracia := fun _ => 0
  costosFijosTotal := 500
  costoVariable := 0
  inversionInicial := 0
  tasaImpuestos := 0

theorem specValid_cfgEjemplo : SpecValid cfgEjemplo := by
  constructor <;> first
    | exact fun r => le_refl 0
    | norm_num [cfgEjemplo]

theorem specValid_cfgC1 : SpecValid cfgC1 := by
  constructor <;> first
    | exact fun r => le_refl 0
    | norm_num [cfgC1]

/-- C1 (amended): each month's user counts are the half-even rounding of
the exact compound value `inicio * (1+g)^(mes-1)` — rounding is applied
anew each month to the exact power, and the total is the sum of the two
rounded segment counts. -/
theorem c1_usuarios_redondeo_por_mes (c : Config) (mes : ℕ) :
    (monthRecord c mes).usuariosPremium =
      roundHalfEven ((c.usuariosPremiumInicio : ℚ) * (1 + c.crecimientoMensual) ^ (mes - 1)) ∧
    (monthRecord c mes).usuariosBasicos =
      roundHalfEven ((c.usuariosBasicaInicio : ℚ) * (1 + c.crecimientoMensual) ^ (mes - 1)) ∧
    (monthRecord c mes).totalUsuarios =
      (monthRecord c mes).usuariosPremium + (monthRecord c mes).usuariosBasicos :=
  ⟨rfl, rfl, rfl⟩

/-- C1 (counterexample to the claim as stated): for the valid configuration
`cfgC1` (10 initial premium users, 15 percent growth), month 3 holds
`round(10 * 1.15^2) = round(13.225) = 13` users, while compounding on the
rounded month-2 value (12 users) would give `round(12 * 1.15) =
round(13.8) = 14`: growth does not compound on the rounded prior-month
value. -/
theorem c1_counterexample :
    SpecValid cfgC1 ∧
    usuariosPremiumMes cfgC1 2 = 12 ∧
    usuariosPremiumMes cfgC1 3 = 13 ∧
    roundHalfEven ((usuariosPremiumMes cfgC1 2 : ℚ) * (1 + cfgC1.crecimientoMensual)) = 14 ∧
    usuariosPremiumMes cfgC1 3 ≠
      roundHalfEven ((usuariosPremiumMes cfgC1 2 : ℚ) * (1 + cfgC1.crecimientoMensual)) := by
  have h2 : usuariosPremiumMes cfgC1 2 = 12 := by
    have harg : ((cfgC1.usuariosPremiumInicio : ℚ)) * (1 + cfgC1.crecimientoMensual) ^ (2 - 1) = 23/2 := by
      norm_num [cfgC1]
    rw [usuariosPremiumMes, harg, roundHalfEven]
    norm_num
  have h3 : usuariosPremiumMes cfgC1 3 = 13 := by
    have harg : ((cfgC1.usuariosPremiumInicio : ℚ)) * (1 + cfgC1.crecimientoMensual) ^ (3 - 1) = 529/40 := by
      norm_num [cfgC1]
    rw [usuariosPremiumMes, harg, roundHalfEven]
    norm_num
  have h4 : roundHalfEven ((usuariosPremiumMes cfgC1 2 : ℚ) * (1 + cfgC1.crecimientoMensual)) = 14 := by
    rw [h2]
    have harg : ((12 : ℤ) : ℚ) * (1 + cfgC1.crecimientoMensual) = 69/5 := by
      norm_num [cfgC1]
    rw [harg, roundHalfEven]
    norm_num
  refine ⟨specValid_cfgC1, h2, h3, h4, ?_⟩
  rw [h3, h4]
  norm_num

/-- Sum of the salary dict's values, `sum(sueldos.values())` (line 125). -/
def sueldosTotal (c : Config) : ℚ := (roleNames.map c.sueldos).sum

/-- The `errors` list built by `validate_inputs` (src/proyeccion.py lines
111-128): a price not above the variable cost, or no initial user, is an
error; a nonempty error list aborts the run (`st.stop()`, line 443) before
any projection is computed.  Messages keep the source wording (emoji
omitted). -/
def validate_errors (c : Config) : List String :=
  (if c.precioPremium ≤ c.costoVariable then
    ["El precio premium debe ser mayor al costo variable"] else []) ++
  (if c.precioBasica ≤ c.costoVariable then
    ["El precio básico debe ser mayor al costo variable"] else []) ++
  (if c.usuariosPremiumInicio + c.usuariosBasicaInicio = 0 then
    ["Debe tener al menos un usuario inicial"] else [])

/-- The `warnings_list` of `validate_inputs` (line 125); warnings are shown
but never abort the run. -/
def validate_warnings (c : Config) : List String :=
  if c.inversionInicial < sueldosTotal c * 3 then
    ["La inversión inicial podría ser insuficiente para financiar al equipo durante 3 meses"]
  else []

/-- A spec-valid configuration with degenerate economics: both prices at
most the variable cost per user. -/
def cfgDegenerado : Config :=
  { cfgEjemplo with precioPremium := 1, precioBasica := 1, costoVariable := 2 }

theorem specValid_cfgDegenerado : SpecValid cfgDegenerado := by
  constructor <;> first
    | exact fun r => le_refl 0
    | norm_num [cfgDegenerado, cfgEjemplo]

/-- C2 (counterexample to the claim as stated): `cfgDegenerado` is valid by
the spec's validity rules, yet `validate_inputs` reports an error for it
(price not above variable cost), so the run is aborted before any
projection: the projection is rejected. -/
theorem c2_counterexample :
    SpecValid cfgDegenerado ∧ validate_errors cfgDegenerado ≠ [] := by
  refine ⟨specValid_cfgDegenerado, ?_⟩
  norm_num [validate_errors, cfgDegenerado, cfgEjemplo]
  exact List.cons_ne_nil _ _

/-- C2 (amended): `validate_inputs` accepts a configuration exactly when
both prices exceed the variable cost and some initial user exists —
configurations with `price ≤ variable_cost_per_user` are rejected as
errors; and for every configuration the engine itself produces exactly
`meses` records whose month indices are contiguous and increasing,
starting at 1. -/
theorem c2_validacion_y_ledger (c : Config) :
    (validate_errors c = [] ↔
      (c.costoVariable < c.precioPremium ∧ c.costoVariable < c.precioBasica ∧
        c.usuariosPremiumInicio + c.usuariosBasicaInicio ≠ 0)) ∧
    (proyeccion c).length = c.meses ∧
    (proyeccion c).map MonthRecord.mes = (List.range c.meses).map (fun k => k + 1) := by
  refine ⟨?_, ?_, ?_⟩
  · unfold validate_errors
    split_ifs with h1 h2 h3 <;>
      simp_all [not_le, List.append_eq_nil]
  · simp [proyeccion]
  · unfold proyeccion
    rw [List.map_map]
    rfl

/-- C3: cumulative cash starts at the initial investment plus the first
month's net profit, advances by exactly one month's net profit, and equals
the initial investment plus the sum of net profits over months 1..i — the
investment is added once, never re-added. -/
theorem c3_efectivo_acumulado (c : Config) :
    efectivoAcumuladoMes c 1 = c.inversionInicial + utilidadNetaMes c 1 ∧
    (∀ i, 2 ≤ i →
      efectivoAcumuladoMes c i = efectivoAcumuladoMes c (i - 1) + utilidadNetaMes c i) ∧
    (∀ i, efectivoAcumuladoMes c i =
      c.inversionInicial + ∑ j in Finset.Icc 1 i, utilidadNetaMes c j) := by
  refine ⟨?_, ?_, ?_⟩
  · simp only [efectivoAcumuladoMes, sumaUtilidadNeta]
    ring
  · intro i hi
    match i, hi with
    | (j + 1), _ =>
      simp only [efectivoAcumuladoMes, sumaUtilidadNeta, Nat.add_sub_cancel]
      ring
  · intro i
    induction i with
    | zero =>
      rw [Finset.Icc_eq_empty (by norm_num)]
      simp [efectivoAcumuladoMes, sumaUtilidadNeta]
    | succ n ih =>
      rw [Finset.sum_Icc_succ_top (Nat.succ_le_succ (Nat.zero_le n))]
      simp only [efectivoAcumuladoMes, sumaUtilidadNeta] at ih ⊢
      linarith

theorem c3_witness :
    efectivoAcumuladoMes cfgEjemplo 2 =
      efectivoAcumuladoMes cfgEjemplo 1 + utilidadNetaMes cfgEjemplo 2 := by
  have h := (c3_efectivo_acumulado cfgEjemplo).2.1 2 (by norm_num)
  simpa using h

/-- C4 (counterexample to the claim as stated): `cfgEjemplo` is valid with
`tasa_impuestos = 0`; its first month has gross profit 500 > 0 and yet
net profit equals gross profit, so "equality holds exactly when
gross_profit ≤ 0" fails at tax rate zero. -/
theorem c4_counterexample :
    SpecValid cfgEjemplo ∧ 0 < utilidadBrutaMes cfgEjemplo 1 ∧
    utilidadNetaMes cfgEjemplo 1 = utilidadBrutaMes cfgEjemplo 1 := by
  have hup : usuariosPremiumMes cfgEjemplo 1 = 50 := by
    have harg :
        ((cfgEjemplo.usuariosPremiumInicio : ℚ)) *
          (1 + cfgEjemplo.crecimientoMensual) ^ (1 - 1) = 50 := by
      norm_num [cfgEjemplo]
    rw [usuariosPremiumMes, harg, roundHalfEven]
    norm_num
  have hub : usuariosBasicosMes cfgEjemplo 1 = 100 := by
    have harg :
        ((cfgEjemplo.usuariosBasicaInicio : ℚ)) *
          (1 + cfgEjemplo.crecimientoMensual) ^ (1 - 1) = 100 := by
      norm_num [cfgEjemplo]
    rw [usuariosBasicosMes, harg, roundHalfEven]
    norm_num
  have hbruta : utilidadBrutaMes cfgEjemplo 1 = 500 := by
    simp only [utilidadBrutaMes, ingresosTotalesMes, ingresosPremiumMes, ingresosBasicosMes,
      costosTotalesMes, costosFijosMes, costosVariablesMes, totalUsuariosMes,
      costosPersonalMes, contribucionRol, rolesTable, hup, hub]
    norm_num [cfgEjemplo]
  refine ⟨specValid_cfgEjemplo, by rw [hbruta]; norm_num, ?_⟩
  rw [utilidadNetaMes, impuestosMes, hbruta]
  norm_num [cfgEjemplo]

/-- C4 (amended): taxes equal `max(gross_profit, 0) * tax_rate`, are never
negative, net profit never exceeds gross profit, a non-positive gross
profit is passed through untaxed, and — provided the tax rate is positive —
net profit equals gross profit exactly when gross profit is non-positive. -/
theorem c4_impuestos (c : Config) (mes : ℕ) (hv : SpecValid c) :
    impuestosMes c mes = max (utilidadBrutaMes c mes) 0 * (c.tasaImpuestos / 100) ∧
    0 ≤ impuestosMes c mes ∧
    utilidadNetaMes c mes ≤ utilidadBrutaMes c mes ∧
    (utilidadBrutaMes c mes ≤ 0 → utilidadNetaMes c mes = utilidadBrutaMes c mes) ∧
    (0 < c.tasaImpuestos →
      (utilidadNetaMes c mes = utilidadBrutaMes c mes ↔ utilidadBrutaMes c mes ≤ 0)) := by
  have ht0 : 0 ≤ c.tasaImpuestos / 100 := by
    have := hv.tasa_nonneg
    positivity
  by_cases hg : 0 < utilidadBrutaMes c mes
  · have htax : impuestosMes c mes = utilidadBrutaMes c mes * (c.tasaImpuestos / 100) :=
      if_pos hg
    have hmax : max (utilidadBrutaMes c mes) 0 = utilidadBrutaMes c mes := max_eq_left hg.le
    have htaxpos : 0 ≤ impuestosMes c mes := by
      rw [htax]; exact mul_nonneg hg.le ht0
    refine ⟨by rw [htax, hmax], htaxpos, ?_, ?_, ?_⟩
    · unfold utilidadNetaMes; linarith
    · intro hle; linarith
    · intro hrate
      have hratepos : 0 < c.tasaImpuestos / 100 := by positivity
      have : 0 < impuestosMes c mes := by
        rw [htax]; exact mul_pos hg hratepos
      constructor
      · intro heq
        exfalso
        unfold utilidadNetaMes at heq
        linarith
      · intro hle; linarith
  · have htax : impuestosMes c mes = 0 := if_neg hg
    have hmax : max (utilidadBrutaMes c mes) 0 = 0 := max_eq_right (not_lt.mp hg)
    have hnet : utilidadNetaMes c mes = utilidadBrutaMes c mes := by
      unfold utilidadNetaMes; rw [htax]; ring
    exact ⟨by rw [htax, hmax, zero_mul], htax.ge, hnet.le, fun _ => hnet,
      fun _ => ⟨fun _ => not_lt.mp hg, fun _ => hnet⟩⟩

theorem c4_witness :
    impuestosMes cfgEjemplo 1 =
      max (utilidadBrutaMes cfgEjemplo 1) 0 * (cfgEjemplo.tasaImpuestos / 100) :=
  (c4_impuestos cfgEjemplo 1 specValid_cfgEjemplo).1

theorem sum_map_ite_eq_filter {α : Type} (l : List α) (p : α → Prop) [DecidablePred p]
    (f : α → ℚ) :
    (l.map (fun e => if p e then f e else 0)).sum =
      ((l.filter (fun e => decide (p e))).map f).sum := by
  induction l with
  | nil => rfl
  | cons a t ih => by_cases h : p a <;> simp [List.filter_cons, h, ih]

/-- C5: a payroll role contributes `salary * headcount` in exactly the
months strictly after its grace period — the month equal to the grace
period pays nothing and month `grace + 1` is the first paid one — and the
personnel cost is the sum of the contributions of the roles whose grace
period has elapsed. -/
theorem c5_costos_personal (c : Config) (mes : ℕ) :
    costosPersonalMes c mes =
      ((rolesTable.filter (fun e => decide (c.gracia e.1 < mes))).map
        (fun e => c.sueldos e.1 * (e.2 : ℚ))).sum ∧
    (∀ rol cantidad, c.gracia rol < mes →
      contribucionRol c mes rol cantidad = c.sueldos rol * (cantidad : ℚ)) ∧
    (∀ rol cantidad, mes ≤ c.gracia rol → contribucionRol c mes rol cantidad = 0) ∧
    (∀ rol cantidad, contribucionRol c (c.gracia rol) rol cantidad = 0) ∧
    (∀ rol cantidad,
      contribucionRol c (c.gracia rol + 1) rol cantidad = c.sueldos rol * (cantidad : ℚ)) := by
  refine ⟨?_, ?_, ?_, ?_, ?_⟩
  · simp only [costosPersonalMes, contribucionRol]
    exact sum_map_ite_eq_filter rolesTable (fun e => c.gracia e.1 < mes)
      (fun e => c.sueldos e.1 * (e.2 : ℚ))
  · intro rol cantidad h
    exact if_pos h
  · intro rol cantidad h
    exact if_neg (not_lt.mpr h)
  · intro rol cantidad
    exact if_neg (lt_irrefl _)
  · intro rol cantidad
    exact if_pos (Nat.lt_succ_self _)

theorem c5_witness :
    contribucionRol cfgEjemplo 1 "CEO" 1 = cfgEjemplo.sueldos "CEO" * (1 : ℚ) :=
  (c5_costos_personal cfgEjemplo 1).2.1 "CEO" 1 (by norm_num [cfgEjemplo])

/-- C6: the margin and ROI columns implement the division-by-zero guards of
the source exactly — a quotient where the denominator is positive,
literal 0 otherwise.  In this exact-rational model every output field is a
rational number, so no field is ever NaN or infinite. -/
theorem c6_margenes_roi (c : Config) (mes : ℕ) :
    (0 < ingresosTotalesMes c mes →
      margenBrutoMes c mes = utilidadBrutaMes c mes / ingresosTotalesMes c mes ∧
      margenNetoMes c mes = utilidadNetaMes c mes / ingresosTotalesMes c mes) ∧
    (ingresosTotalesMes c mes ≤ 0 →
      margenBrutoMes c mes = 0 ∧ margenNetoMes c mes = 0) ∧
    (c.inversionInicial = 0 → roiAcumuladoMes c mes = 0) ∧
    (0 < c.inversionInicial →
      roiAcumuladoMes c mes =
        (efectivoAcumuladoMes c mes - c.inversionInicial) / c.inversionInicial) := by
  refine ⟨?_, ?_, ?_, ?_⟩
  · intro h
    exact ⟨if_pos h, if_pos h⟩
  · intro h
    exact ⟨if_neg (not_lt.mpr h), if_neg (not_lt.mpr h)⟩
  · intro h
    exact if_neg (by rw [h]; exact lt_irrefl 0)
  · intro h
    exact if_pos h

theorem c6_witness : roiAcumuladoMes cfgEjemplo 1 = 0 :=
  (c6_margenes_roi cfgEjemplo 1).2.2.1 (by norm_num [cfgEjemplo])

/-- The break-even search (src/proyeccion.py lines 302-306 and 691-704):
`df[df['Utilidad_Neta'] > 0]['Mes'].iloc[0]` is the first row with positive
net profit; the `IndexError` branch is the absent value. -/
def find_break_even (l : List MonthRecord) : Option MonthRecord :=
  l.find? (fun r => decide (0 < r.utilidadNeta))

theorem monthRecord_mes (c : Config) (mes : ℕ) : (monthRecord c mes).mes = mes := rfl

theorem proyeccion_getElem (c : Config) (k : ℕ) (hk : k < c.meses) :
    (proyeccion c)[k]? = some (monthRecord c (k + 1)) := by
  simp [proyeccion, List.getElem?_map, List.getElem?_range hk]

theorem mem_proyeccion (c : Config) (r : MonthRecord) :
    r ∈ proyeccion c ↔ ∃ k, k < c.meses ∧ r = monthRecord c (k + 1) := by
  simp only [proyeccion, List.mem_map, List.mem_range]
  constructor
  · rintro ⟨k, hk, rfl⟩
    exact ⟨k, hk, rfl⟩
  · rintro ⟨k, hk, rfl⟩
    exact ⟨k, hk, rfl⟩

theorem find?_eq_some_split {α : Type} (p : α → Bool) :
    ∀ (l : List α) (r : α), l.find? p = some r →
      ∃ l1 l2, l = l1 ++ r :: l2 ∧ ∀ x ∈ l1, p x = false := by
  intro l
  induction l with
  | nil => intro r h; simp [List.find?] at h
  | cons a t ih =>
    intro r h
    by_cases ha : p a = true
    · rw [List.find?_cons_of_pos t ha] at h
      obtain rfl : a = r := by injection h
      exact ⟨[], t, rfl, by simp⟩
    · rw [List.find?_cons_of_neg t ha] at h
      obtain ⟨l1, l2, rfl, h1⟩ := ih r h
      refine ⟨a :: l1, l2, rfl, ?_⟩
      intro x hx
      rcases List.mem_cons.mp hx with rfl | hx'
      · simpa using ha
      · exact h1 x hx'

/-- C7: the break-even locator returns the first month record with strictly
positive net profit — any record of the same ledger with a smaller month
index has non-positive net profit — and returns the absent value, not an
error, exactly when no month of the horizon has positive net profit. -/
theorem c7_break_even (c : Config) :
    (find_break_even (proyeccion c) = none ↔
      ∀ r ∈ proyeccion c, r.utilidadNeta ≤ 0) ∧
    (∀ r, find_break_even (proyeccion c) = some r →
      r ∈ proyeccion c ∧ 0 < r.utilidadNeta ∧
        ∀ s ∈ proyeccion c, s.mes < r.mes → s.utilidadNeta ≤ 0) := by
  constructor
  · rw [find_break_even, List.find?_eq_none]
    constructor
    · intro h r hr
      have := h r hr
      simpa [not_lt] using this
    · intro h r hr
      simpa [not_lt] using h r hr
  · intro r h
    have hmem : r ∈ proyeccion c := List.mem_of_find?_eq_some h
    have hpos : 0 < r.utilidadNeta := by
      have := List.find?_some h
      simpa using this
    refine ⟨hmem, hpos, ?_⟩
    obtain ⟨l1, l2, heq, hfail⟩ := find?_eq_some_split _ (proyeccion c) r h
    have hlen : c.meses = l1.length + (l2.length + 1) := by
      have h0 := congrArg List.length heq
      simpa [proyeccion, List.length_append] using h0
    have hl1 : l1.length < c.meses := by omega
    have hr_idx : (proyeccion c)[l1.length]? = some r := by
      rw [heq, List.getElem?_append]
      simp
    have hr_eq : r = monthRecord c (l1.length + 1) := by
      have := proyeccion_getElem c l1.length hl1
      rw [hr_idx] at this
      exact Option.some.inj this
    have hr_mes : r.mes = l1.length + 1 := by rw [hr_eq]; rfl
    intro s hs hlt
    obtain ⟨k, hk, rfl⟩ := (mem_proyeccion c s).mp hs
    have hk_mes : (monthRecord c (k + 1)).mes = k + 1 := rfl
    have hklt : k < l1.length := by
      rw [hk_mes] at hlt
      rw [hr_mes] at hlt
      omega
    have hs_idx : (proyeccion c)[k]? = some (monthRecord c (k + 1)) :=
      proyeccion_getElem c k hk
    have hs_l1 : (l1 ++ r :: l2)[k]? = l1[k]? := by
      rw [List.getElem?_append]
      simp [hklt]
    have hs_mem_l1 : monthRecord c (k + 1) ∈ l1 := by
      have : l1[k]? = some (monthRecord c (k + 1)) := by
        rw [← hs_l1, ← heq]
        exact hs_idx
      exact List.getElem?_mem this
    have := hfail _ hs_mem_l1
    simpa [not_lt] using this

theorem c7_witness :
    find_break_even (proyeccion cfgEjemplo) = none ↔
      ∀ r ∈ proyeccion cfgEjemplo, r.utilidadNeta ≤ 0 :=
  (c7_break_even cfgEjemplo).1

/-- The three risk outcomes of the tab-4 risk block. -/
inductive RiskLevel where
  | LOW
  | MEDIUM
  | HIGH
deriving DecidableEq

/-- Count `meses_negativos = len(df[df['Utilidad_Neta'] < 0])` (line 797). -/
def mesesConPerdidas (l : List MonthRecord) : ℕ :=
  l.countP (fun r => decide (r.utilidadNeta < 0))

/-- The risk classification of src/proyeccion.py lines 797-814:
HIGH when `df['Efectivo_Acumulado'].min() < 0`, else MEDIUM when
`meses_negativos > meses * 0.5`, else LOW.  On an empty table the pandas
minimum is NaN, whose comparison with 0 is false, matching the `none`
branch here. -/
def classify_risk (meses : ℕ) (l : List MonthRecord) : RiskLevel :=
  match (l.map MonthRecord.efectivoAcumulado).min? with
  | some m =>
    if m < 0 then RiskLevel.HIGH
    else if (meses : ℚ) * (1/2) < (mesesConPerdidas l : ℚ) then RiskLevel.MEDIUM
    else RiskLevel.LOW
  | none =>
    if (meses : ℚ) * (1/2) < (mesesConPerdidas l : ℚ) then RiskLevel.MEDIUM
    else RiskLevel.LOW

theorem foldl_min_lt_iff (c : ℚ) :
    ∀ (xs : List ℚ) (a : ℚ), xs.foldl min a < c ↔ (a < c ∨ ∃ x ∈ xs, x < c) := by
  intro xs
  induction xs with
  | nil => simp
  | cons y t ih =>
    intro a
    rw [List.foldl_cons, ih, min_lt_iff]
    simp only [List.mem_cons]
    constructor
    · rintro ((h | h) | ⟨x, hx, hlt⟩)
      · exact Or.inl h
      · exact Or.inr ⟨y, Or.inl rfl, h⟩
      · exact Or.inr ⟨x, Or.inr hx, hlt⟩
    · rintro (h | ⟨x, (rfl | hx), hlt⟩)
      · exact Or.inl (Or.inl h)
      · exact Or.inl (Or.inr hlt)
      · exact Or.inr ⟨x, hx, hlt⟩

theorem min?_map_neg_iff (l : List MonthRecord) :
    (∃ m, (l.map MonthRecord.efectivoAcumulado).min? = some m ∧ m < 0) ↔
      ∃ r ∈ l, r.efectivoAcumulado < 0 := by
  cases l with
  | nil => simp [List.min?]
  | cons r0 t =>
    have hm : ((r0 :: t).map MonthRecord.efectivoAcumulado).min? =
        some ((t.map MonthRecord.efectivoAcumulado).foldl min r0.efectivoAcumulado) := rfl
    rw [hm]
    simp only [Option.some.injEq, exists_eq_left']
    rw [foldl_min_lt_iff]
    simp only [List.mem_map, List.mem_cons]
    constructor
    · rintro (h | ⟨x, ⟨r, hr, rfl⟩, hlt⟩)
      · exact ⟨r0, Or.inl rfl, h⟩
      · exact ⟨r, Or.inr hr, hlt⟩
    · rintro ⟨r, (rfl | hr), hlt⟩
      · exact Or.inl hlt
      · exact Or.inr ⟨r.efectivoAcumulado, ⟨r, hr, rfl⟩, hlt⟩

/-- C8: the classifier returns HIGH exactly when some month's cumulative
cash is negative (equivalently, the minimum is negative) — regardless of
the loss count — otherwise MEDIUM exactly when the months with losses
strictly exceed half the horizon, otherwise LOW. -/
theorem c8_clasificacion_riesgo (meses : ℕ) (l : List MonthRecord) :
    (classify_risk meses l = RiskLevel.HIGH ↔ ∃ r ∈ l, r.efectivoAcumulado < 0) ∧
    (classify_risk meses l = RiskLevel.MEDIUM ↔
      (∀ r ∈ l, 0 ≤ r.efectivoAcumulado) ∧
        (meses : ℚ) * (1/2) < (mesesConPerdidas l : ℚ)) ∧
    (classify_risk meses l = RiskLevel.LOW ↔
      (∀ r ∈ l, 0 ≤ r.efectivoAcumulado) ∧
        ¬ (meses : ℚ) * (1/2) < (mesesConPerdidas l : ℚ)) := by
  cases l with
  | nil =>
    have hcount : mesesConPerdidas ([] : List MonthRecord) = 0 := rfl
    have hnotmed : ¬ (meses : ℚ) * (1/2) < (mesesConPerdidas ([] : List MonthRecord) : ℚ) := by
      rw [hcount]
      push_neg
      positivity
    have hcl : classify_risk meses [] =
        if (meses : ℚ) * (1/2) < (mesesConPerdidas ([] : List MonthRecord) : ℚ)
        then RiskLevel.MEDIUM else RiskLevel.LOW := rfl
    rw [hcl, if_neg hnotmed]
    exact ⟨iff_of_false (by simp) (by simp),
      iff_of_false (by simp) (fun h => absurd h.2 hnotmed),
      iff_of_true rfl ⟨by simp, hnotmed⟩⟩
  | cons r0 t =>
    have hm : ((r0 :: t).map MonthRecord.efectivoAcumulado).min? =
        some ((t.map MonthRecord.efectivoAcumulado).foldl min r0.efectivoAcumulado) := rfl
    set m := (t.map MonthRecord.efectivoAcumulado).foldl min r0.efectivoAcumulado with hm_def
    have hneg : m < 0 ↔ ∃ r ∈ r0 :: t, r.efectivoAcumulado < 0 := by
      rw [← min?_map_neg_iff (r0 :: t), hm]
      simp
    have hge : ¬ m < 0 ↔ ∀ r ∈ r0 :: t, 0 ≤ r.efectivoAcumulado := by
      rw [hneg]
      push_neg
      rfl
    have hcr : classify_risk meses (r0 :: t) =
        if m < 0 then RiskLevel.HIGH
        else if (meses : ℚ) * (1/2) < (mesesConPerdidas (r0 :: t) : ℚ) then RiskLevel.MEDIUM
        else RiskLevel.LOW := by
      rw [classify_risk, hm]
    by_cases h1 : m < 0
    · rw [hcr, if_pos h1]
      have hexneg := hneg.mp h1
      have hnotall : ¬ ∀ r ∈ r0 :: t, 0 ≤ r.efectivoAcumulado := by
        intro hall
        obtain ⟨r, hr, hlt⟩ := hexneg
        exact absurd (hall r hr) (not_le.mpr hlt)
      exact ⟨iff_of_true rfl hexneg,
        iff_of_false (by simp) (fun h => hnotall h.1),
        iff_of_false (by simp) (fun h => hnotall h.1)⟩
    · have hall := hge.mp h1
      rw [hcr, if_neg h1]
      by_cases h2 : (meses : ℚ) * (1/2) < (mesesConPerdidas (r0 :: t) : ℚ)
      · rw [if_pos h2]
        exact ⟨iff_of_false (by simp) (fun hex => absurd (hneg.mpr hex) h1),
          iff_of_true rfl ⟨hall, h2⟩,
          iff_of_false (by simp) (fun h => absurd h2 h.2)⟩
      · rw [if_neg h2]
        exact ⟨iff_of_false (by simp) (fun hex => absurd (hneg.mpr hex) h1),
          iff_of_false (by simp) (fun h => absurd h.2 h2),
          iff_of_true rfl ⟨hall, h2⟩⟩

theorem c8_witness :
    classify_risk cfgEjemplo.meses (proyeccion cfgEjemplo) = RiskLevel.LOW ↔
      (∀ r ∈ proyeccion cfgEjemplo, 0 ≤ r.efectivoAcumulado) ∧
        ¬ (cfgEjemplo.meses : ℚ) * (1/2) <
          (mesesConPerdidas (proyeccion cfgEjemplo) : ℚ) :=
  (c8_clasificacion_riesgo cfgEjemplo.meses (proyeccion cfgEjemplo)).2.2

/-- The four parameters the sensitivity block can vary
(src/proyeccion.py lines 711-730). -/
inductive ParamSens where
  | precioPremiumP
  | precioBasicaP
  | crecimientoMensualP
  | costoVariableP

/-- The per-sample override of the sweep loop (lines 733-755): the
`temp_params` dict is rebuilt from the base values and exactly one key is
replaced; the growth sample is a percentage, stored divided by 100. -/
def overrideParam (c : Config) (p : ParamSens) (v : ℚ) : Config :=
  match p with
  | ParamSens.precioPremiumP => { c with precioPremium := v }
  | ParamSens.precioBasicaP => { c with precioBasica := v }
  | ParamSens.crecimientoMensualP => { c with crecimientoMensual := v / 100 }
  | ParamSens.costoVariableP => { c with costoVariable := v }

/-- One row of `sensibilidad_results` (lines 758-763). -/
structure SweepResult where
  valor : ℚ
  utilidadFinal : ℚ
  efectivoFinal : ℚ
  roiFinal : ℚ
deriving DecidableEq

/-- One sweep iteration: rerun the engine on the overridden configuration
and read the last row (`iloc[-1]`, the month `meses` record). -/
def sweepEntry (c : Config) (p : ParamSens) (v : ℚ) : SweepResult where
  valor := v
  utilidadFinal := utilidadNetaMes (overrideParam c p v) (overrideParam c p v).meses
  efectivoFinal := efectivoAcumuladoMes (overrideParam c p v) (overrideParam c p v).meses
  roiFinal := roiAcumuladoMes (overrideParam c p v) (overrideParam c p v).meses

/-- The sweep loop `for value in range_values` (lines 732-763). -/
def sensibilidad (c : Config) (p : ParamSens) (samples : List ℚ) : List SweepResult :=
  samples.map (sweepEntry c p)

/-- C9: the sweep yields one result per sample, in sample order; the i-th
result is a function of the base configuration and the i-th sample alone
(so the recorded values do not depend on the order the samples are
evaluated in, and permuting the samples permutes the results); each
derived configuration leaves every field other than the selected one
unchanged, and sets the selected one from the sample. -/
theorem c9_sensibilidad (c : Config) (p : ParamSens) (samples : List ℚ) :
    (sensibilidad c p samples).length = samples.length ∧
    (∀ i, i < samples.length →
      (sensibilidad c p samples)[i]? = (samples[i]?).map (sweepEntry c p)) ∧
    (∀ samples2, samples.Perm samples2 →
      (sensibilidad c p samples).Perm (sensibilidad c p samples2)) ∧
    (∀ v, (overrideParam c p v).meses = c.meses ∧
      (overrideParam c p v).usuariosPremiumInicio = c.usuariosPremiumInicio ∧
      (overrideParam c p v).usuariosBasicaInicio = c.usuariosBasicaInicio ∧
      (overrideParam c p v).sueldos = c.sueldos ∧
      (overrideParam c p v).gracia = c.gracia ∧
      (overrideParam c p v).costosFijosTotal = c.costosFijosTotal ∧
      (overrideParam c p v).inversionInicial = c.inversionInicial ∧
      (overrideParam c p v).tasaImpuestos = c.tasaImpuestos) ∧
    (∀ v, p = ParamSens.precioPremiumP →
      (overrideParam c p v).precioPremium = v ∧
      (overrideParam c p v).precioBasica = c.precioBasica ∧
      (overrideParam c p v).crecimientoMensual = c.crecimientoMensual ∧
      (overrideParam c p v).costoVariable = c.costoVariable) ∧
    (∀ v, p = ParamSens.precioBasicaP →
      (overrideParam c p v).precioBasica = v ∧
      (overrideParam c p v).precioPremium = c.precioPremium ∧
      (overrideParam c p v).crecimientoMensual = c.crecimientoMensual ∧
      (overrideParam c p v).costoVariable = c.costoVariable) ∧
    (∀ v, p = ParamSens.crecimientoMensualP →
      (overrideParam c p v).crecimientoMensual = v / 100 ∧
      (overrideParam c p v).precioPremium = c.precioPremium ∧
      (overrideParam c p v).precioBasica = c.precioBasica ∧
      (overrideParam c p v).costoVariable = c.costoVariable) ∧
    (∀ v, p = ParamSens.costoVariableP →
      (overrideParam c p v).costoVariable = v ∧
      (overrideParam c p v).precioPremium = c.precioPremium ∧
      (overrideParam c p v).precioBasica = c.precioBasica ∧
      (overrideParam c p v).crecimientoMensual = c.crecimientoMensual) := by
  refine ⟨?_, ?_, ?_, ?_, ?_, ?_, ?_, ?_⟩
  · simp [sensibilidad]
  · intro i hi
    simp [sensibilidad, List.getElem?_map]
  · intro samples2 hperm
    exact hperm.map (sweepEntry c p)
  · intro v
    cases p <;> simp [overrideParam]
  · rintro v rfl
    simp [overrideParam]
  · rintro v rfl
    simp [overrideParam]
  · rintro v rfl
    simp [overrideParam]
  · rintro v rfl
    simp [overrideParam]

theorem c9_witness :
    (sensibilidad cfgEjemplo ParamSens.precioPremiumP [5])[0]? =
      some (sweepEntry cfgEjemplo ParamSens.precioPremiumP 5) := by
  have h := (c9_sensibilidad cfgEjemplo ParamSens.precioPremiumP [5]).2.1 0 (by norm_num)
  simpa using h

/-- C10: the personnel-cost loop reads the salary and grace dicts only at
the eight hardcoded role names (with headcount fixed by `rolesTable`), so
two configurations whose salary and grace mappings agree on those eight
names — all other fields equal — produce identical ledgers: entries for
any other role name have no effect on any output. -/
theorem c10_roles_hardcoded (c1 c2 : Config)
    (hmeses : c1.meses = c2.meses)
    (hup : c1.usuariosPremiumInicio = c2.usuariosPremiumInicio)
    (hubi : c1.usuariosBasicaInicio = c2.usuariosBasicaInicio)
    (hpp : c1.precioPremium = c2.precioPremium)
    (hpb : c1.precioBasica = c2.precioBasica)
    (hcrec : c1.crecimientoMensual = c2.crecimientoMensual)
    (hcf : c1.costosFijosTotal = c2.costosFijosTotal)
    (hcv : c1.costoVariable = c2.costoVariable)
    (hinv : c1.inversionInicial = c2.inversionInicial)
    (htasa : c1.tasaImpuestos = c2.tasaImpuestos)
    (hsueldos : ∀ rol ∈ roleNames, c1.sueldos rol = c2.sueldos rol)
    (hgracia : ∀ rol ∈ roleNames, c1.gracia rol = c2.gracia rol) :
    proyeccion c1 = proyeccion c2 := by
  have hUP : ∀ m, usuariosPremiumMes c1 m = usuariosPremiumMes c2 m := by
    intro m
    unfold usuariosPremiumMes
    rw [hup, hcrec]
  have hUB : ∀ m, usuariosBasicosMes c1 m = usuariosBasicosMes c2 m := by
    intro m
    unfold usuariosBasicosMes
    rw [hubi, hcrec]
  have hTU : ∀ m, totalUsuariosMes c1 m = totalUsuariosMes c2 m := by
    intro m
    unfold totalUsuariosMes
    rw [hUP, hUB]
  have hIP : ∀ m, ingresosPremiumMes c1 m = ingresosPremiumMes c2 m := by
    intro m
    unfold ingresosPremiumMes
    rw [hUP, hpp]
  have hIB : ∀ m, ingresosBasicosMes c1 m = ingresosBasicosMes c2 m := by
    intro m
    unfold ingresosBasicosMes
    rw [hUB, hpb]
  have hIT : ∀ m, ingresosTotalesMes c1 m = ingresosTotalesMes c2 m := by
    intro m
    unfold ingresosTotalesMes
    rw [hIP, hIB]
  have hPers : ∀ m, costosPersonalMes c1 m = costosPersonalMes c2 m := by
    intro m
    unfold costosPersonalMes
    refine congrArg List.sum (List.map_congr_left ?_)
    intro e he
    have hrol : e.1 ∈ roleNames := List.mem_map_of_mem Prod.fst he
    unfold contribucionRol
    rw [hsueldos e.1 hrol, hgracia e.1 hrol]
  have hCF : ∀ m, costosFijosMes c1 m = costosFijosMes c2 m := by
    intro m
    unfold costosFijosMes
    rw [hPers, hcf]
  have hCV : ∀ m, costosVariablesMes c1 m = costosVariablesMes c2 m := by
    intro m
    unfold costosVariablesMes
    rw [hTU, hcv]
  have hCT : ∀ m, costosTotalesMes c1 m = costosTotalesMes c2 m := by
    intro m
    unfold costosTotalesMes
    rw [hCF, hCV]
  have hUBr : ∀ m, utilidadBrutaMes c1 m = utilidadBrutaMes c2 m := by
    intro m
    unfold utilidadBrutaMes
    rw [hIT, hCT]
  have hImp : ∀ m, impuestosMes c1 m = impuestosMes c2 m := by
    intro m
    unfold impuestosMes
    rw [hUBr, htasa]
  have hUN : ∀ m, utilidadNetaMes c1 m = utilidadNetaMes c2 m := by
    intro m
    unfold utilidadNetaMes
    rw [hUBr, hImp]
  have hSum : ∀ n, sumaUtilidadNeta c1 n = sumaUtilidadNeta c2 n := by
    intro n
    induction n with
    | zero => rfl
    | succ k ih => simp only [sumaUtilidadNeta, ih, hUN]
  have hEf : ∀ m, efectivoAcumuladoMes c1 m = efectivoAcumuladoMes c2 m := by
    intro m
    unfold efectivoAcumuladoMes
    rw [hSum, hinv]
  have hMB : ∀ m, margenBrutoMes c1 m = margenBrutoMes c2 m := by
    intro m
    unfold margenBrutoMes
    rw [hIT, hUBr]
  have hMN : ∀ m, margenNetoMes c1 m = margenNetoMes c2 m := by
    intro m
    unfold margenNetoMes
    rw [hIT, hUN]
  have hROI : ∀ m, roiAcumuladoMes c1 m = roiAcumuladoMes c2 m := by
    intro m
    unfold roiAcumuladoMes
    rw [hEf, hinv]
  have hrec : ∀ m, monthRecord c1 m = monthRecord c2 m := by
    intro m
    unfold monthRecord
    rw [hUP, hUB, hTU, hIP, hIB, hIT, hPers, hCF, hCV, hCT, hUBr, hImp, hUN, hEf, hMB,
      hMN, hROI]
  unfold proyeccion
  rw [hmeses]
  exact List.map_congr_left (fun k _ => hrec (k + 1))

/-- Variant of `cfgEjemplo` with a salary entered for a role name outside the
hardcoded table. -/
def cfgBecario : Config :=
  { cfgEjemplo with sueldos := fun r => if r = "Becario" then 999 else 0 }

theorem c10_witness : proyeccion cfgEjemplo = proyeccion cfgBecario := by
  refine c10_roles_hardcoded cfgEjemplo cfgBecario rfl rfl rfl rfl rfl rfl rfl rfl rfl rfl
    ?_ ?_
  · intro rol hrol
    simp only [roleNames, rolesTable, List.mem_map, List.mem_cons] at hrol
    simp only [cfgBecario, cfgEjemplo]
    rcases hrol with ⟨e, he, rfl⟩
    rcases he with rfl | rfl | rfl | rfl | rfl | rfl | rfl | rfl | h <;>
      first
        | rfl
        | exact absurd h (List.not_mem_nil e)
  · intro rol hrol
    rfl

end Proyeccion
